import Mathlib

/-!
Verification of the ant-colony simulation (`src/main.py`).

Shallow embedding conventions:
* Python floats are idealised as exact arithmetic: colony scalars
  (`food_storage`, `building_progress`) and agent speed are `ℚ`;
  agent and food coordinates are `ℝ` because `Ant.move_toward` takes a
  real square root (`math.sqrt`).
* Python object identity of `Food` instances (used by `list.remove` /
  the `in` test in `Manager.remove`) is modelled by an explicit `id`
  field; two distinct Python objects always carry distinct ids.
* Every `random.random() < p` draw and every `random.choice` is an
  explicit oracle parameter (`Bool` / `ℤ`), threaded through the state
  machine exactly where the source draws it.
* Pygame rendering, the event loop and the pheromone manager are out of
  scope: the pheromone decay loop touches neither the colony, the ants
  nor the food index, so it is omitted from the tick.
-/

/-! ## Constants (`src/main.py` lines 10, 24-46) -/

def WIDTH : ℕ := 960
def HEIGHT : ℕ := 1080

def INITIAL_COLONY_SIZE : ℕ := 100
def MAX_COLONY_SIZE : ℕ := 500
def COLONY_GROWTH_RATE : ℚ := 1/10
def INITIAL_FOOD_STORAGE : ℚ := 1000
def FOOD_CONSUMPTION_RATE : ℚ := 1/10
def CRITICAL_FOOD_LEVEL : ℚ := 300
def OPTIMAL_FOOD_LEVEL : ℚ := 800

/-- `ANTHILL_POINT = (WIDTH // 2, HEIGHT // 2)` -/
def ANTHILL_POINT : ℝ × ℝ := (480, 540)

def BASE_ANT_SPEED : ℚ := 1
def FOOD_DETECTION_RANGE_SQUARED : ℝ := 100 ^ 2
def FOOD_COLLECTION_RANGE_SQUARED : ℝ := 10 ^ 2

def BUILD_RANGE : ℝ := 30
def BUILD_EFFICIENCY : ℚ := 1/5
def MAX_NEST_SIZE : ℕ := 200

/-- `sq_dist` (line 48): squared distance between two points. -/
def sq_dist (p q : ℝ × ℝ) : ℝ := (p.1 - q.1) ^ 2 + (p.2 - q.2) ^ 2

/-! ## Food and the spatial index (`Manager`, lines 85-114) -/

/-- A food item (class `Food`, line 107).  `id` models Python object
identity; `amount` is the `random.randint(5, 20)` draw made at
construction. -/
structure Food where
  id : ℕ
  x : ℝ
  y : ℝ
  amount : ℕ

/-- The `Manager` repository: a list of rows, each a list of tiles, each
a list of items (`self.repository`, line 87). -/
abbrev Manager : Type := List (List (List Food))

/-- Replace the `n`-th element of a list by `f` of itself; out-of-range
indices leave the list unchanged (models indexing into the fixed grid). -/
def listModify {α : Type} : ℕ → (α → α) → List α → List α
  | _, _, [] => []
  | 0, f, x :: xs => f x :: xs
  | n + 1, f, x :: xs => x :: listModify n f xs

/-- `Manager.add` (lines 90-93): append the item to the bucket at
`(item.x // 10, item.y // 10)`. -/
noncomputable def Manager.add (m : Manager) (item : Food) : Manager :=
  listModify (⌊item.x / 10⌋).toNat
    (fun row => listModify (⌊item.y / 10⌋).toNat (fun tile => tile ++ [item]) row) m

/-- `Manager.remove` (lines 95-99): `if item in bucket: bucket.remove(item)`
— remove the first occurrence, a no-op when the item is absent. -/
noncomputable def Manager.remove (m : Manager) (item : Food) : Manager :=
  listModify (⌊item.x / 10⌋).toNat
    (fun row => listModify (⌊item.y / 10⌋).toNat
      (fun tile =>
        if tile.any (fun f => f.id == item.id) then
          tile.eraseP (fun f => f.id == item.id)
        else tile) row) m

/-! ## Colony (lines 53-82) -/

/-- An agent's role (`self.role`, line 137). -/
inductive Role where
  | builder
  | scavenger
deriving DecidableEq, Repr

/-- `Colony.__init__` (lines 54-58). -/
structure Colony where
  food_storage : ℚ
  nest_size : ℕ
  population : ℕ
  building_progress : ℚ
deriving DecidableEq, Repr

/-- Initial colony state (lines 54-58). -/
def Colony.init : Colony :=
  { food_storage := INITIAL_FOOD_STORAGE
    nest_size := 20
    population := INITIAL_COLONY_SIZE
    building_progress := 0 }

/-- `Colony.get_ant_speed` (lines 79-82). -/
def Colony.get_ant_speed (c : Colony) : ℚ :=
  BASE_ANT_SPEED * (1 + ((c.nest_size : ℚ) - 20) / 100)

/-! ## Agents (class `Ant`, lines 131-209) -/

/-- Agent state (`Ant.__init__`, lines 132-140).  The colony
back-reference is passed explicitly to every operation instead of being
stored. -/
structure Ant where
  x : ℝ
  y : ℝ
  speed : ℚ
  role : Role
  building : Bool
  has_food : Bool
  target : Option Food

/-- `Ant.__init__` (lines 132-140): spawn at a point with speed from the
colony; `roleDraw` is the `random.random() < 0.3` builder draw. -/
def Ant.init (c : Colony) (roleDraw : Bool) : Ant :=
  { x := ANTHILL_POINT.1
    y := ANTHILL_POINT.2
    speed := c.get_ant_speed
    role := if roleDraw then Role.builder else Role.scavenger
    building := false
    has_food := false
    target := none }

/-- `Colony.update` (lines 60-77): consume food (floored at 0), convert
building progress into nest growth, and possibly return one new ant.
`growthDraw` is `random.random() < COLONY_GROWTH_RATE`; `roleDraw` is the
new ant's constructor role draw. -/
def Colony.update (c : Colony) (numAnts : ℕ) (growthDraw roleDraw : Bool) :
    Colony × Option Ant :=
  let fs := max 0 (c.food_storage - (numAnts : ℚ) * FOOD_CONSUMPTION_RATE)
  let c :=
    if c.building_progress ≥ 100 ∧ c.nest_size < MAX_NEST_SIZE then
      { c with food_storage := fs, nest_size := c.nest_size + 1, building_progress := 0 }
    else
      { c with food_storage := fs }
  if c.food_storage > OPTIMAL_FOOD_LEVEL ∧ numAnts < MAX_COLONY_SIZE ∧ growthDraw = true then
    (c, some (Ant.init c roleDraw))
  else
    (c, none)

/-- `Ant.update_role` (lines 198-205) as a pure function of the current
role and food storage; `switchDraw` is `random.random() < 0.1`,
`builderDraw` the nested `random.random() < 0.3`. -/
def update_role (role : Role) (food_storage : ℚ) (switchDraw builderDraw : Bool) : Role :=
  if food_storage < CRITICAL_FOOD_LEVEL then
    Role.scavenger
  else if food_storage > OPTIMAL_FOOD_LEVEL then
    if switchDraw = true then
      (if builderDraw then Role.builder else Role.scavenger)
    else role
  else role

/-- `Ant.move_toward` (lines 181-187): advance by `speed` along the unit
vector toward `target`; a no-op when the distance is zero. -/
noncomputable def move_toward (p target : ℝ × ℝ) (speed : ℝ) : ℝ × ℝ :=
  let dx := target.1 - p.1
  let dy := target.2 - p.2
  let dist := Real.sqrt (dx ^ 2 + dy ^ 2)
  if dist = 0 then p
  else (p.1 + dx / dist * speed, p.2 + dy / dist * speed)

/-- `Ant.find_food` (lines 189-196): the nested `for row / for tile /
for food` loops with an early `return` select the first item of the
flattened repository (row order, then tile order, then item order)
strictly within detection range; when none is found `self.target` is
left untouched. -/
noncomputable def find_food (pos : ℝ × ℝ) (target : Option Food) (fm : Manager) :
    Option Food :=
  match (fm.flatten.flatten).find?
      (fun food => decide (sq_dist pos (food.x, food.y) < FOOD_DETECTION_RANGE_SQUARED)) with
  | some food => some food
  | none => target

/-- `Ant.build` (lines 207-209): add `BUILD_EFFICIENCY` to the colony's
building progress when strictly within `BUILD_RANGE` of the nest. -/
noncomputable def Ant.build (a : Ant) (c : Colony) : Colony :=
  if sq_dist (a.x, a.y) ANTHILL_POINT < BUILD_RANGE ^ 2 then
    { c with building_progress := c.building_progress + BUILD_EFFICIENCY }
  else c

/-- The random draws consumed by one `Ant.move` call, in source order:
the two `update_role` draws, the two `random.choice([-1, 0, 1])` steps
of the random walk, and the builder's `random.random() < 0.3` draw. -/
structure MoveRand where
  switchDraw : Bool
  builderDraw : Bool
  stepX : ℤ
  stepY : ℤ
  buildDraw : Bool

/-- Lines 142-171 of `Ant.move`: speed refresh, role refresh, food
search, then the movement / harvest / deposit branches.  Returns the
updated ant, colony and food index. -/
noncomputable def Ant.stepMove (a : Ant) (c : Colony) (fm : Manager) (r : MoveRand) :
    Ant × Colony × Manager :=
  let sp := c.get_ant_speed
  let rl := update_role a.role c.food_storage r.switchDraw r.builderDraw
  let tgt :=
    if rl = Role.scavenger ∧ a.has_food = false then find_food (a.x, a.y) a.target fm
    else a.target
  let a := { a with speed := sp, role := rl, target := tgt }
  if a.has_food = true then
    let p := move_toward (a.x, a.y) ANTHILL_POINT (a.speed : ℝ)
    let a := { a with x := p.1, y := p.2 }
    if sq_dist (a.x, a.y) ANTHILL_POINT < FOOD_COLLECTION_RANGE_SQUARED then
      ({ a with has_food := false }, { c with food_storage := c.food_storage + 20 }, fm)
    else
      (a, c, fm)
  else
    match a.target with
    | some t =>
      let p := move_toward (a.x, a.y) (t.x, t.y) (a.speed : ℝ)
      let a := { a with x := p.1, y := p.2 }
      if sq_dist (a.x, a.y) (t.x, t.y) < FOOD_COLLECTION_RANGE_SQUARED then
        ({ a with has_food := true, target := none }, c, fm.remove t)
      else
        (a, c, fm)
    | none =>
      ({ a with x := a.x + (r.stepX : ℝ) * (a.speed : ℝ),
                y := a.y + (r.stepY : ℝ) * (a.speed : ℝ) }, c, fm)

/-- `Ant.move` (lines 142-179): the movement phase above followed by the
builder block (lines 174-179), which runs AFTER the movement branch and
— when the 30% draw succeeds — sets `building`, calls `build` and
returns early, skipping only the `self.building = False` reset. -/
noncomputable def Ant.move (a : Ant) (c : Colony) (fm : Manager) (r : MoveRand) :
    Ant × Colony × Manager :=
  let s := a.stepMove c fm r
  let a := s.1
  let c := s.2.1
  let fm := s.2.2
  if a.role = Role.builder ∧ a.has_food = false ∧ r.buildDraw = true then
    ({ a with building := true }, a.build c, fm)
  else
    ({ a with building := false }, c, fm)

/-! ## The tick (main loop body, lines 233-282) -/

/-- One simulation state: the colony, the ant list (iteration order =
creation order) and the food index. -/
structure SimState where
  colony : Colony
  ants : List Ant
  fm : Manager

/-- The random draws consumed by one tick: the colony growth draw, the
new ant's constructor role draw, and one `MoveRand` per ant position. -/
structure TickRand where
  growthDraw : Bool
  roleDraw : Bool
  moveRands : ℕ → MoveRand

/-- The `for ant in ants: ant.move(food_manager)` loop (lines 270-271):
each ant sees the colony and food-index mutations of its predecessors. -/
noncomputable def moveAnts : List Ant → Colony → Manager → (ℕ → MoveRand) →
    List Ant × Colony × Manager
  | [], c, fm, _ => ([], c, fm)
  | a :: rest, c, fm, r =>
    let s := a.move c fm (r 0)
    let s' := moveAnts rest s.2.1 s.2.2 (fun i => r (i + 1))
    (s.1 :: s'.1, s'.2)

/-- One tick of the main loop (lines 233-282): apply queued food spawns
(`spawn_food` via the mouse event, lines 237-239), run `colony.update`
and append the new ant if any (lines 244-246, so it participates in the
same tick's ant loop), then move every ant (lines 270-271).  Pheromone
decay touches neither the colony, the ants nor the food index and is
omitted. -/
noncomputable def tick (s : SimState) (spawns : List Food) (r : TickRand) : SimState :=
  let fm := spawns.foldl Manager.add s.fm
  let cu := s.colony.update s.ants.length r.growthDraw r.roleDraw
  let ants :=
    match cu.2 with
    | some newAnt => s.ants ++ [newAnt]
    | none => s.ants
  let m := moveAnts ants cu.1 fm r.moveRands
  { colony := m.2.1, ants := m.1, fm := m.2.2 }

/-- Iterated ticks: one entry of the trace per frame, carrying that
frame's food spawns and random draws. -/
noncomputable def run (s : SimState) (trace : List (List Food × TickRand)) : SimState :=
  trace.foldl (fun s p => tick s p.1 p.2) s

/-- The initial state built by `main` (lines 220-229): a fresh colony,
`INITIAL_COLONY_SIZE` ants at the anthill (role draws supplied by
`roleDraws`), and the food index after the two initial `spawn_food`
calls (the spawned items, with their random amounts, are supplied as
`initialFood`). -/
noncomputable def initState (roleDraws : ℕ → Bool) (initialFood : List Food) : SimState :=
  { colony := Colony.init
    ants := (List.range INITIAL_COLONY_SIZE).map (fun i => Ant.init Colony.init (roleDraws i))
    fm := initialFood.foldl Manager.add
      (List.replicate (WIDTH / 10) (List.replicate (HEIGHT / 10) [])) }

/-! ## Concrete scenario states used by witnesses and counterexamples -/

/-- A MoveRand with every draw failing and a zero random-walk step. -/
def mrZero : MoveRand := ⟨false, false, 0, 0, false⟩

/-- A colony whose food storage sits strictly between the critical and
optimal levels, so `update_role` never changes a role. -/
def colonyMid : Colony := ⟨500, 20, 100, 0⟩

/-- C1 scenario: one food item at (5,5), indexed in bucket (0,0). -/
def foodC1 : Food := ⟨0, 5, 5, 5⟩

def fmC1 : Manager := [[[foodC1]]]

/-- C1 scenario: two scavengers at the food's position, both already
holding it as their stored target. -/
def antA : Ant := ⟨5, 5, 1, Role.scavenger, false, false, some foodC1⟩

def antB : Ant := ⟨5, 5, 1, Role.scavenger, false, false, some foodC1⟩

/-- C2 scenario: a builder with no food and no target, 20 units from the
nest point (within `BUILD_RANGE`). -/
def antC2 : Ant := ⟨480, 560, 1, Role.builder, false, false, none⟩

/-- C2 scenario: the building draw succeeds and the random walk draws a
`+1` step on the x axis. -/
def mrBuild : MoveRand := ⟨false, false, 1, 0, true⟩

/-- C3 scenario: a carrying scavenger at the nest point — it will
deposit `+20` this tick. -/
def antDep : Ant := ⟨480, 540, 1, Role.scavenger, false, true, none⟩

/-- C3 scenario: a builder with no food, updated after the deposit. -/
def antBld : Ant := ⟨480, 540, 1, Role.builder, false, false, none⟩

/-- C3 scenario: food storage 299 is below `CRITICAL_FOOD_LEVEL` = 300
at the start of the tick. -/
def stateC3 : SimState := ⟨⟨299, 20, 100, 0⟩, [antDep, antBld], []⟩

def trC3 : TickRand := ⟨false, false, fun _ => mrZero⟩

/-- C3 amended-claim witness: a single builder, not carrying, with
storage 250 below the critical level. -/
def stateC3w : SimState := ⟨⟨250, 20, 100, 0⟩, [⟨480, 540, 1, Role.builder, false, false, none⟩], []⟩

/-- C9 witness: a carrying ant 30 units east of the nest point. -/
def antC9 : Ant := ⟨510, 540, 1, Role.scavenger, false, true, none⟩

/-! ## Frame lemmas: what one `Ant.move` can do to the colony -/

theorem move_toward_self (p : ℝ × ℝ) (s : ℝ) : move_toward p p s = p := by
  unfold move_toward
  simp

theorem build_nest_size (a : Ant) (c : Colony) : (a.build c).nest_size = c.nest_size := by
  unfold Ant.build; split <;> rfl

theorem build_population (a : Ant) (c : Colony) : (a.build c).population = c.population := by
  unfold Ant.build; split <;> rfl

theorem build_food_storage (a : Ant) (c : Colony) :
    (a.build c).food_storage = c.food_storage := by
  unfold Ant.build; split <;> rfl

/-- The movement phase leaves the colony unchanged except possibly a
single `+20` food deposit (line 158). -/
theorem stepMove_colony (a : Ant) (c : Colony) (fm : Manager) (r : MoveRand) :
    (a.stepMove c fm r).2.1 = c ∨
      (a.stepMove c fm r).2.1 = { c with food_storage := c.food_storage + 20 } := by
  unfold Ant.stepMove
  dsimp only
  split
  · split
    · right; rfl
    · left; rfl
  · split
    · split
      · left; rfl
      · left; rfl
    · left; rfl

/-- `Ant.move` never writes `nest_size` or `population`, and touches
`food_storage` only through the `+20` deposit. -/
theorem move_colony_frame (a : Ant) (c : Colony) (fm : Manager) (r : MoveRand) :
    (a.move c fm r).2.1.nest_size = c.nest_size ∧
      (a.move c fm r).2.1.population = c.population ∧
      c.food_storage ≤ (a.move c fm r).2.1.food_storage := by
  unfold Ant.move
  rcases stepMove_colony a c fm r with h | h <;>
    dsimp only <;> split <;>
      simp [h, build_nest_size, build_population, build_food_storage]

/-- The ant loop preserves the list length and the colony frame. -/
theorem moveAnts_frame (ants : List Ant) (c : Colony) (fm : Manager) (r : ℕ → MoveRand) :
    (moveAnts ants c fm r).1.length = ants.length ∧
      (moveAnts ants c fm r).2.1.nest_size = c.nest_size ∧
      (moveAnts ants c fm r).2.1.population = c.population ∧
      c.food_storage ≤ (moveAnts ants c fm r).2.1.food_storage := by
  induction ants generalizing c fm r with
  | nil => simp [moveAnts]
  | cons a rest ih =>
    have hmove := move_colony_frame a c fm (r 0)
    have hrest := ih (a.move c fm (r 0)).2.1 (a.move c fm (r 0)).2.2 (fun i => r (i + 1))
    refine ⟨?_, ?_, ?_, ?_⟩
    · simpa [moveAnts] using hrest.1
    · simpa [moveAnts, hrest.2.1] using hmove.1
    · simpa [moveAnts, hrest.2.2.1] using hmove.2.1
    · exact le_trans hmove.2.2 (by simpa [moveAnts] using hrest.2.2.2)

/-- `Colony.update` effects on the scalar fields. -/
theorem update_frame (c : Colony) (numAnts : ℕ) (g rd : Bool) :
    0 ≤ (c.update numAnts g rd).1.food_storage ∧
      c.nest_size ≤ (c.update numAnts g rd).1.nest_size ∧
      (c.update numAnts g rd).1.nest_size ≤ max c.nest_size MAX_NEST_SIZE ∧
      (c.update numAnts g rd).1.population = c.population := by
  unfold Colony.update
  dsimp only
  split
  case isTrue h =>
    split <;> exact ⟨le_max_left _ _, Nat.le_succ _, le_max_of_le_right h.2, rfl⟩
  case isFalse h =>
    split <;> exact ⟨le_max_left _ _, le_refl _, le_max_left _ _, rfl⟩

/-- The growth signal fires only when the agent count is strictly below
the population cap (line 74). -/
theorem update_newAnt_lt (c : Colony) (numAnts : ℕ) (g rd : Bool) (a : Ant)
    (h : (c.update numAnts g rd).2 = some a) : numAnts < MAX_COLONY_SIZE := by
  unfold Colony.update at h
  dsimp only at h
  split at h <;> split at h <;> simp_all

/-! ## Tick-level and run-level invariant lemmas -/

theorem tick_nest (s : SimState) (spawns : List Food) (r : TickRand) :
    s.colony.nest_size ≤ (tick s spawns r).colony.nest_size ∧
      (tick s spawns r).colony.nest_size ≤ max s.colony.nest_size MAX_NEST_SIZE := by
  unfold tick
  dsimp only
  constructor
  · rw [(moveAnts_frame _ _ _ _).2.1]
    exact (update_frame s.colony s.ants.length r.growthDraw r.roleDraw).2.1
  · rw [(moveAnts_frame _ _ _ _).2.1]
    exact (update_frame s.colony s.ants.length r.growthDraw r.roleDraw).2.2.1

theorem run_nest_mono (s : SimState) (trace : List (List Food × TickRand)) :
    s.colony.nest_size ≤ (run s trace).colony.nest_size := by
  induction trace generalizing s with
  | nil => exact le_refl _
  | cons p rest ih =>
    exact le_trans (tick_nest s p.1 p.2).1
      (by simpa [run] using ih (tick s p.1 p.2))

theorem run_nest_le (s : SimState) (trace : List (List Food × TickRand))
    (h : s.colony.nest_size ≤ MAX_NEST_SIZE) :
    (run s trace).colony.nest_size ≤ MAX_NEST_SIZE := by
  induction trace generalizing s with
  | nil => exact h
  | cons p rest ih =>
    have h2 := le_trans (tick_nest s p.1 p.2).2 (max_le h (le_refl _))
    simpa [run] using ih (tick s p.1 p.2) h2

theorem tick_length (s : SimState) (spawns : List Food) (r : TickRand) :
    s.ants.length ≤ (tick s spawns r).ants.length ∧
      (tick s spawns r).ants.length ≤ max s.ants.length MAX_COLONY_SIZE := by
  unfold tick
  dsimp only
  rw [(moveAnts_frame _ _ _ _).1]
  rcases hcu : (Colony.update s.colony s.ants.length r.growthDraw r.roleDraw).2 with _ | na
  · simp
  · have hlt := update_newAnt_lt s.colony s.ants.length r.growthDraw r.roleDraw na hcu
    simp only [List.length_append, List.length_cons, List.length_nil]
    exact ⟨Nat.le_succ _, le_max_of_le_right hlt⟩

theorem run_length_mono (s : SimState) (trace : List (List Food × TickRand)) :
    s.ants.length ≤ (run s trace).ants.length := by
  induction trace generalizing s with
  | nil => exact le_refl _
  | cons p rest ih =>
    exact le_trans (tick_length s p.1 p.2).1
      (by simpa [run] using ih (tick s p.1 p.2))

theorem run_length_le (s : SimState) (trace : List (List Food × TickRand))
    (h : s.ants.length ≤ MAX_COLONY_SIZE) :
    (run s trace).ants.length ≤ MAX_COLONY_SIZE := by
  induction trace generalizing s with
  | nil => exact h
  | cons p rest ih =>
    have h2 := le_trans (tick_length s p.1 p.2).2 (max_le h (le_refl _))
    simpa [run] using ih (tick s p.1 p.2) h2

theorem tick_population (s : SimState) (spawns : List Food) (r : TickRand) :
    (tick s spawns r).colony.population = s.colony.population := by
  unfold tick
  dsimp only
  rw [(moveAnts_frame _ _ _ _).2.2.1]
  exact (update_frame s.colony s.ants.length r.growthDraw r.roleDraw).2.2.2

theorem run_population (s : SimState) (trace : List (List Food × TickRand)) :
    (run s trace).colony.population = s.colony.population := by
  induction trace generalizing s with
  | nil => rfl
  | cons p rest ih =>
    rw [show run s (p :: rest) = run (tick s p.1 p.2) rest from rfl,
      ih (tick s p.1 p.2), tick_population]

/-! ## Claim C4: food storage is never negative -/

/-- Claim C4: after every tick — from any state, for any food spawns and
random draws — `colony.food_storage ≥ 0`: consumption is subtracted and
floored at 0 by `Colony.update`, and the only other mutation during the
tick is the positive `+20` deposit credit. -/
theorem claim_C4_food_storage_nonneg (s : SimState) (spawns : List Food) (r : TickRand) :
    0 ≤ (tick s spawns r).colony.food_storage := by
  unfold tick
  dsimp only
  exact le_trans (update_frame s.colony s.ants.length r.growthDraw r.roleDraw).1
    (moveAnts_frame _ _ _ _).2.2.2

/-! ## Claim C5: the nest radius is monotone and bounded -/

/-- Claim C5: over every run of the simulation from the initial state,
`colony.nest_size` is monotonically non-decreasing over time and never
exceeds `MAX_NEST_SIZE`. -/
theorem claim_C5_nest_radius (roleDraws : ℕ → Bool) (initialFood : List Food)
    (trace extra : List (List Food × TickRand)) :
    (run (initState roleDraws initialFood) trace).colony.nest_size ≤
        (run (initState roleDraws initialFood) (trace ++ extra)).colony.nest_size ∧
      (run (initState roleDraws initialFood) trace).colony.nest_size ≤ MAX_NEST_SIZE := by
  constructor
  · rw [show run (initState roleDraws initialFood) (trace ++ extra) =
        run (run (initState roleDraws initialFood) trace) extra by
      simp [run, List.foldl_append]]
    exact run_nest_mono _ _
  · exact run_nest_le _ _ (by norm_num [initState, Colony.init, MAX_NEST_SIZE])

/-! ## Claim C6: the population bound -/

/-- Claim C6: starting from `INITIAL_COLONY_SIZE` agents, the live agent
count never exceeds `MAX_COLONY_SIZE` (each colony update adds at most
one agent, only when the count is strictly below the cap), and agents
are never removed (the count is non-decreasing). -/
theorem claim_C6_population_bound (roleDraws : ℕ → Bool) (initialFood : List Food)
    (trace extra : List (List Food × TickRand)) :
    (run (initState roleDraws initialFood) trace).ants.length ≤ MAX_COLONY_SIZE ∧
      (run (initState roleDraws initialFood) trace).ants.length ≤
        (run (initState roleDraws initialFood) (trace ++ extra)).ants.length := by
  constructor
  · exact run_length_le _ _
      (by simp [initState, INITIAL_COLONY_SIZE, MAX_COLONY_SIZE])
  · rw [show run (initState roleDraws initialFood) (trace ++ extra) =
        run (run (initState roleDraws initialFood) trace) extra by
      simp [run, List.foldl_append]]
    exact run_length_mono _ _

/-! ## Claim C10: the `population` field is write-once and unread -/

/-- Claim C10: `Colony.population` is written exactly once, at
construction, to `INITIAL_COLONY_SIZE`; `Colony.update` and `Ant.move`
leave it unchanged and make no decision based on it (updating a colony
with any population value gives the same result up to that same
population value), and after any run it still equals
`INITIAL_COLONY_SIZE` regardless of colony growth. -/
theorem claim_C10_population_field (c : Colony) (n : ℕ) (g rd : Bool) (p : ℕ)
    (a : Ant) (fm : Manager) (mr : MoveRand)
    (roleDraws : ℕ → Bool) (initialFood : List Food)
    (trace : List (List Food × TickRand)) :
    Colony.init.population = INITIAL_COLONY_SIZE ∧
      (c.update n g rd).1.population = c.population ∧
      (Colony.update { c with population := p } n g rd).1 =
        { (c.update n g rd).1 with population := p } ∧
      (Colony.update { c with population := p } n g rd).2 = (c.update n g rd).2 ∧
      (a.move c fm mr).2.1.population = c.population ∧
      (run (initState roleDraws initialFood) trace).colony.population =
        INITIAL_COLONY_SIZE := by
  refine ⟨rfl, (update_frame c n g rd).2.2.2, ?_, ?_, (move_colony_frame a c fm mr).2.1, ?_⟩
  · unfold Colony.update
    dsimp only
    split_ifs <;> rfl
  · unfold Colony.update Ant.init Colony.get_ant_speed
    dsimp only
    split_ifs <;> rfl
  · rw [run_population]
    rfl

/-! ## Claim C8: first-found foraging search with strict range test -/

/-- `List.find?` returns the element at the first index whose test
succeeds. -/
theorem find?_first_index {α : Type} (p : α → Bool) (l : List α) (i : ℕ) (h : i < l.length)
    (hp : p (l.get ⟨i, h⟩) = true)
    (hfirst : ∀ (j : ℕ) (hj : j < i), p (l.get ⟨j, lt_trans hj h⟩) = false) :
    l.find? p = some (l.get ⟨i, h⟩) := by
  induction l generalizing i with
  | nil => cases h
  | cons a t ih =>
    cases i with
    | zero => simp_all [List.find?_cons_of_pos]
    | succ n =>
      have ha : p a = false := hfirst 0 (Nat.succ_pos n)
      rw [List.find?_cons_of_neg _ (by simp [ha])]
      exact ih n (Nat.lt_of_succ_lt_succ h) hp
        (fun j hj => hfirst (j + 1) (Nat.succ_lt_succ hj))

/-- Claim C8: `find_food` selects the first food item in
index-iteration order (rows, then tiles, then items — the flattened
repository) whose squared distance to the agent is strictly below
`FOOD_DETECTION_RANGE_SQUARED`; an item exactly at the boundary fails
the strict `<` test, and when no item is strictly in range the stored
target is left unchanged (in particular an unset target stays unset). -/
theorem claim_C8_foraging_search (pos : ℝ × ℝ) (target : Option Food) (fm : Manager) :
    ((∀ f ∈ fm.flatten.flatten,
        ¬ sq_dist pos (f.x, f.y) < FOOD_DETECTION_RANGE_SQUARED) →
      find_food pos target fm = target) ∧
    ∀ (i : ℕ) (h : i < fm.flatten.flatten.length),
      sq_dist pos ((fm.flatten.flatten.get ⟨i, h⟩).x, (fm.flatten.flatten.get ⟨i, h⟩).y) <
          FOOD_DETECTION_RANGE_SQUARED →
      (∀ (j : ℕ) (hj : j < i),
        ¬ sq_dist pos ((fm.flatten.flatten.get ⟨j, lt_trans hj h⟩).x,
            (fm.flatten.flatten.get ⟨j, lt_trans hj h⟩).y) < FOOD_DETECTION_RANGE_SQUARED) →
      find_food pos target fm = some (fm.flatten.flatten.get ⟨i, h⟩) := by
  constructor
  · intro hnone
    unfold find_food
    rw [List.find?_eq_none.mpr (fun f hf => by simp [hnone f hf])]
  · intro i h hp hfirst
    unfold find_food
    rw [find?_first_index _ _ i h (by simp only [decide_eq_true_eq]; exact hp)
      (fun j hj => by simp only [decide_eq_false_iff_not]; exact hfirst j hj)]

/-- Witness for C8, exercising the boundary: from `(0,0)` the item at
`(100,0)` sits exactly at squared distance `100² = FOOD_DETECTION_RANGE_SQUARED`
and is excluded by the strict `<`, so the second item at `(3,4)` is
selected. -/
theorem claim_C8_foraging_search_witness :
    ¬ sq_dist ((0 : ℝ), (0 : ℝ)) (100, 0) < FOOD_DETECTION_RANGE_SQUARED ∧
      sq_dist ((0 : ℝ), (0 : ℝ)) (3, 4) < FOOD_DETECTION_RANGE_SQUARED ∧
      find_food (0, 0) none [[[⟨1, 100, 0, 5⟩, ⟨2, 3, 4, 7⟩]]] =
        some (⟨2, 3, 4, 7⟩ : Food) := by
  refine ⟨by norm_num [sq_dist, FOOD_DETECTION_RANGE_SQUARED],
    by norm_num [sq_dist, FOOD_DETECTION_RANGE_SQUARED], ?_⟩
  have h := (claim_C8_foraging_search (0, 0) none
      [[[⟨1, 100, 0, 5⟩, ⟨2, 3, 4, 7⟩]]]).2 1 (by simp)
    (by norm_num [sq_dist, FOOD_DETECTION_RANGE_SQUARED])
    (by
      intro j hj
      interval_cases j
      norm_num [sq_dist, FOOD_DETECTION_RANGE_SQUARED])
  exact h

/-! ## Claim C9: strict approach to the nest while carrying -/

/-- Euclidean distance between two points. -/
noncomputable def euclid_dist (p q : ℝ × ℝ) : ℝ := Real.sqrt (sq_dist p q)

/-- The movement phase of a carrying agent is exactly one
`move_toward` step to the anthill at the refreshed speed; the deposit
test and the builder block never change the position. -/
theorem stepMove_carrying_position (a : Ant) (c : Colony) (fm : Manager) (r : MoveRand)
    (h : a.has_food = true) :
    ((a.stepMove c fm r).1.x, (a.stepMove c fm r).1.y) =
      move_toward (a.x, a.y) ANTHILL_POINT ((c.get_ant_speed : ℚ) : ℝ) := by
  unfold Ant.stepMove
  dsimp only
  rw [if_pos h]
  split <;> rfl

theorem move_position_eq_stepMove (a : Ant) (c : Colony) (fm : Manager) (r : MoveRand) :
    ((a.move c fm r).1.x, (a.move c fm r).1.y) =
      ((a.stepMove c fm r).1.x, (a.stepMove c fm r).1.y) := by
  unfold Ant.move
  dsimp only
  split <;> rfl

/-- A `move_toward` step of size `s`, with `0 < s ≤ distance`, lands
exactly `s` closer to the target. -/
theorem move_toward_dist (p t : ℝ × ℝ) (s : ℝ) (hs0 : 0 < s)
    (hs : s ≤ euclid_dist p t) :
    euclid_dist (move_toward p t s) t = euclid_dist p t - s := by
  have hflip : euclid_dist p t = Real.sqrt ((t.1 - p.1) ^ 2 + (t.2 - p.2) ^ 2) := by
    unfold euclid_dist sq_dist
    congr 1
    ring
  rw [hflip] at hs ⊢
  have hd0 : 0 < Real.sqrt ((t.1 - p.1) ^ 2 + (t.2 - p.2) ^ 2) := lt_of_lt_of_le hs0 hs
  have hnn : (0 : ℝ) ≤ (t.1 - p.1) ^ 2 + (t.2 - p.2) ^ 2 := by positivity
  have hd2 : (Real.sqrt ((t.1 - p.1) ^ 2 + (t.2 - p.2) ^ 2)) ^ 2 =
      (t.1 - p.1) ^ 2 + (t.2 - p.2) ^ 2 := Real.sq_sqrt hnn
  unfold move_toward
  dsimp only
  rw [if_neg (ne_of_gt hd0)]
  unfold euclid_dist sq_dist
  set d := Real.sqrt ((t.1 - p.1) ^ 2 + (t.2 - p.2) ^ 2) with hd
  have hdne : d ≠ 0 := ne_of_gt hd0
  have key : (p.1 + (t.1 - p.1) / d * s - t.1) ^ 2 + (p.2 + (t.2 - p.2) / d * s - t.2) ^ 2 =
      (d - s) ^ 2 := by
    have expand : (p.1 + (t.1 - p.1) / d * s - t.1) ^ 2 +
        (p.2 + (t.2 - p.2) / d * s - t.2) ^ 2 =
        ((t.1 - p.1) ^ 2 + (t.2 - p.2) ^ 2) * ((1 - s / d) ^ 2) := by
      field_simp
      ring
    rw [expand, ← hd2]
    field_simp
  rw [key, Real.sqrt_sq (by linarith)]

/-- The agent speed derived from a nest radius at most `MAX_NEST_SIZE`
is positive and strictly below the collection radius `10`. -/
theorem get_ant_speed_bounds (c : Colony) (h : c.nest_size ≤ MAX_NEST_SIZE) :
    0 < ((c.get_ant_speed : ℚ) : ℝ) ∧ ((c.get_ant_speed : ℚ) : ℝ) < 10 := by
  have h200 : (c.nest_size : ℝ) ≤ 200 := by
    exact_mod_cast le_trans h (by norm_num [MAX_NEST_SIZE])
  have h0 : (0 : ℝ) ≤ (c.nest_size : ℝ) := Nat.cast_nonneg _
  unfold Colony.get_ant_speed BASE_ANT_SPEED
  constructor
  · push_cast
    nlinarith
  · push_cast
    nlinarith

/-- Claim C9: an agent carrying food whose squared distance to the nest
point is at least `FOOD_COLLECTION_RANGE_SQUARED` strictly decreases its
Euclidean distance to the nest in one tick (it advances by `speed` along
the unit vector toward the nest, and the speed — at most 2.8 for any
legal nest size — is strictly below the collection radius 10). -/
theorem claim_C9_monotone_return (a : Ant) (c : Colony) (fm : Manager) (r : MoveRand)
    (hfood : a.has_food = true) (hnest : c.nest_size ≤ MAX_NEST_SIZE)
    (hfar : FOOD_COLLECTION_RANGE_SQUARED ≤ sq_dist (a.x, a.y) ANTHILL_POINT) :
    euclid_dist ((a.move c fm r).1.x, (a.move c fm r).1.y) ANTHILL_POINT <
        euclid_dist (a.x, a.y) ANTHILL_POINT ∧
      ((c.get_ant_speed : ℚ) : ℝ) < 10 := by
  obtain ⟨hs0, hs10⟩ := get_ant_speed_bounds c hnest
  have hd : (10 : ℝ) ≤ euclid_dist (a.x, a.y) ANTHILL_POINT := by
    unfold euclid_dist
    have h100 : (100 : ℝ) ≤ sq_dist (a.x, a.y) ANTHILL_POINT := by
      rw [show (100 : ℝ) = FOOD_COLLECTION_RANGE_SQUARED by
        norm_num [FOOD_COLLECTION_RANGE_SQUARED]]
      exact hfar
    have := Real.sqrt_le_sqrt h100
    simpa [show Real.sqrt 100 = 10 by
      rw [show (100 : ℝ) = 10 ^ 2 by norm_num, Real.sqrt_sq]
      norm_num] using this
  have hs_le : ((c.get_ant_speed : ℚ) : ℝ) ≤ euclid_dist (a.x, a.y) ANTHILL_POINT :=
    le_trans (le_of_lt hs10) hd
  rw [move_position_eq_stepMove, stepMove_carrying_position a c fm r hfood,
    move_toward_dist _ _ _ hs0 hs_le]
  exact ⟨by linarith, hs10⟩

/-! ## Claim C7: the building increment -/

/-- Claim C7: in every colony update where `building_progress ≥ 100` and
`nest_size < MAX_NEST_SIZE`, the nest radius is incremented by exactly 1
and the building progress is reset to exactly 0, discarding any excess
over 100. -/
theorem claim_C7_building_increment (c : Colony) (numAnts : ℕ) (g rd : Bool)
    (h1 : c.building_progress ≥ 100) (h2 : c.nest_size < MAX_NEST_SIZE) :
    (c.update numAnts g rd).1.nest_size = c.nest_size + 1 ∧
      (c.update numAnts g rd).1.building_progress = 0 := by
  unfold Colony.update
  simp only [if_pos (And.intro h1 h2)]
  split <;> exact ⟨rfl, rfl⟩

/-- Witness for C7: Scenario C of the spec — progress 99.9 + 0.2 = 100.1
crosses 100, the nest radius goes from 20 to 21 and the progress resets
to 0 (not 0.1). -/
theorem claim_C7_building_increment_witness :
    (99.9 + BUILD_EFFICIENCY : ℚ) ≥ 100 ∧ (20 : ℕ) < MAX_NEST_SIZE ∧
      (Colony.update ⟨500, 20, 100, 99.9 + BUILD_EFFICIENCY⟩ 100 false false).1.nest_size = 21 ∧
      (Colony.update ⟨500, 20, 100, 99.9 + BUILD_EFFICIENCY⟩ 100 false false).1.building_progress = 0 := by
  refine ⟨by norm_num [BUILD_EFFICIENCY], by norm_num [MAX_NEST_SIZE], ?_⟩
  have h := claim_C7_building_increment ⟨500, 20, 100, 99.9 + BUILD_EFFICIENCY⟩ 100 false false
    (by norm_num [BUILD_EFFICIENCY]) (by norm_num [MAX_NEST_SIZE])
  exact ⟨h.1, h.2⟩

theorem antA_move_eval :
    antA.move colonyMid fmC1 mrZero =
      (⟨5, 5, 1, Role.scavenger, false, true, none⟩, colonyMid, [[[]]]) := by
  have hdet : sq_dist ((5 : ℝ), (5 : ℝ)) ((5 : ℝ), (5 : ℝ)) < FOOD_DETECTION_RANGE_SQUARED := by
    norm_num [sq_dist, FOOD_DETECTION_RANGE_SQUARED]
  have hcol : sq_dist ((5 : ℝ), (5 : ℝ)) ((5 : ℝ), (5 : ℝ)) < FOOD_COLLECTION_RANGE_SQUARED := by
    norm_num [sq_dist, FOOD_COLLECTION_RANGE_SQUARED]
  have hfl : (⌊(5 : ℝ) / 10⌋).toNat = 0 := by
    rw [show ⌊(5 : ℝ) / 10⌋ = 0 from Int.floor_eq_zero_iff.mpr (by constructor <;> norm_num)]
    rfl
  unfold Ant.move Ant.stepMove
  norm_num [antA, colonyMid, fmC1, mrZero, foodC1, find_food, Manager.remove,
    update_role, Colony.get_ant_speed, BASE_ANT_SPEED, CRITICAL_FOOD_LEVEL,
    OPTIMAL_FOOD_LEVEL, move_toward_self, List.find?, listModify, hdet, hcol, hfl]

theorem antB_move_eval :
    antB.move colonyMid [[[]]] mrZero =
      (⟨5, 5, 1, Role.scavenger, false, true, none⟩, colonyMid, [[[]]]) := by
  have hcol : sq_dist ((5 : ℝ), (5 : ℝ)) ((5 : ℝ), (5 : ℝ)) < FOOD_COLLECTION_RANGE_SQUARED := by
    norm_num [sq_dist, FOOD_COLLECTION_RANGE_SQUARED]
  have hfl : (⌊(5 : ℝ) / 10⌋).toNat = 0 := by
    rw [show ⌊(5 : ℝ) / 10⌋ = 0 from Int.floor_eq_zero_iff.mpr (by constructor <;> norm_num)]
    rfl
  unfold Ant.move Ant.stepMove
  norm_num [antB, colonyMid, mrZero, foodC1, find_food, Manager.remove,
    update_role, Colony.get_ant_speed, BASE_ANT_SPEED, CRITICAL_FOOD_LEVEL,
    OPTIMAL_FOOD_LEVEL, move_toward_self, List.find?, listModify, hcol, hfl]

/-- Claim C1 is violated by the code: after ant A harvests the item and
removes it from the index, ant B — whose stored target is that same,
no-longer-indexed item — still sets its carrying flag from it instead of
treating the harvest as a no-op.  Both ants end the loop carrying food
obtained from the single item. -/
theorem claim_C1_at_most_once_harvest :
    (antA.move colonyMid fmC1 mrZero).2.2 = [[[]]] ∧
      antB.target = some foodC1 ∧
      (antB.move colonyMid [[[]]] mrZero).1.has_food = true ∧
      (antB.move colonyMid [[[]]] mrZero).1.target = none ∧
      (moveAnts [antA, antB] colonyMid fmC1 (fun _ => mrZero)).1.map Ant.has_food =
        [true, true] := by
  refine ⟨by rw [antA_move_eval], rfl, by rw [antB_move_eval], by rw [antB_move_eval], ?_⟩
  simp only [moveAnts, antA_move_eval, antB_move_eval]
  rfl

theorem antC2_stepMove_eval :
    antC2.stepMove colonyMid [] mrBuild =
      (⟨481, 560, 1, Role.builder, false, false, none⟩, colonyMid, []) := by
  have hrne : (Role.builder = Role.scavenger) = False := by simp
  unfold Ant.stepMove
  norm_num [antC2, colonyMid, mrBuild, update_role, Colony.get_ant_speed,
    BASE_ANT_SPEED, CRITICAL_FOOD_LEVEL, OPTIMAL_FOOD_LEVEL, hrne]

/-- Claim C2 is violated by the code: the builder block runs AFTER the
movement branch, not instead of it.  Here the build draw succeeds and
the agent still takes its random-walk step (x moves from 480 to 481)
before adding `BUILD_EFFICIENCY`. -/
theorem claim_C2_counterexample :
    antC2.role = Role.builder ∧ antC2.has_food = false ∧ mrBuild.buildDraw = true ∧
      (antC2.move colonyMid [] mrBuild).1.x = antC2.x + 1 ∧
      (antC2.move colonyMid [] mrBuild).1.building = true ∧
      (antC2.move colonyMid [] mrBuild).2.1.building_progress =
        colonyMid.building_progress + BUILD_EFFICIENCY := by
  have hb : sq_dist ((481 : ℝ), (560 : ℝ)) ANTHILL_POINT < BUILD_RANGE ^ 2 := by
    norm_num [sq_dist, ANTHILL_POINT, BUILD_RANGE]
  refine ⟨rfl, rfl, rfl, ?_, ?_, ?_⟩ <;>
  · unfold Ant.move
    rw [antC2_stepMove_eval]
    norm_num [Ant.build, antC2, colonyMid, mrBuild, BUILD_EFFICIENCY, hb]

/-- Claim C2 amended: when the 30% building draw succeeds for a builder
not carrying food, building happens IN ADDITION to — after — the
movement branch: the tick's result is exactly the movement-phase result
with `building` set and `build` applied to the movement-phase colony,
and `build` adds `BUILD_EFFICIENCY` to `buildingProgress` if and only if
the agent's (post-movement) squared distance to the nest point is
strictly less than `BUILD_RANGE` squared. -/
theorem claim_C2_amended (a : Ant) (c : Colony) (fm : Manager) (r : MoveRand)
    (hrole : (a.stepMove c fm r).1.role = Role.builder)
    (hfood : (a.stepMove c fm r).1.has_food = false)
    (hdraw : r.buildDraw = true) :
    a.move c fm r =
      ({ (a.stepMove c fm r).1 with building := true },
        Ant.build (a.stepMove c fm r).1 (a.stepMove c fm r).2.1,
        (a.stepMove c fm r).2.2) ∧
      (Ant.build (a.stepMove c fm r).1 (a.stepMove c fm r).2.1).building_progress =
        (a.stepMove c fm r).2.1.building_progress +
          (if sq_dist ((a.stepMove c fm r).1.x, (a.stepMove c fm r).1.y) ANTHILL_POINT <
              BUILD_RANGE ^ 2 then BUILD_EFFICIENCY else 0) := by
  constructor
  · unfold Ant.move
    dsimp only
    rw [if_pos ⟨hrole, hfood, hdraw⟩]
  · unfold Ant.build
    split
    · rfl
    · exact (add_zero _).symm

/-- Witness for the amended C2 at the concrete builder scenario. -/
theorem claim_C2_amended_witness :
    (antC2.stepMove colonyMid [] mrBuild).1.role = Role.builder ∧
      (antC2.stepMove colonyMid [] mrBuild).1.has_food = false ∧
      mrBuild.buildDraw = true ∧
      antC2.move colonyMid [] mrBuild =
        ({ (antC2.stepMove colonyMid [] mrBuild).1 with building := true },
          Ant.build (antC2.stepMove colonyMid [] mrBuild).1
            (antC2.stepMove colonyMid [] mrBuild).2.1,
          (antC2.stepMove colonyMid [] mrBuild).2.2) := by
  refine ⟨by rw [antC2_stepMove_eval], by rw [antC2_stepMove_eval], rfl, ?_⟩
  exact (claim_C2_amended antC2 colonyMid [] mrBuild (by rw [antC2_stepMove_eval])
    (by rw [antC2_stepMove_eval]) rfl).1

theorem colonyC3_update_eval :
    Colony.update ⟨299, 20, 100, 0⟩ 2 false false = (⟨298.8, 20, 100, 0⟩, none) := by
  norm_num [Colony.update, FOOD_CONSUMPTION_RATE, MAX_NEST_SIZE, OPTIMAL_FOOD_LEVEL,
    max_eq_right]

theorem antDep_move_eval :
    antDep.move ⟨298.8, 20, 100, 0⟩ [] mrZero =
      (⟨480, 540, 1, Role.scavenger, false, false, none⟩, ⟨318.8, 20, 100, 0⟩, []) := by
  have hmt : ∀ s : ℝ, move_toward ((480 : ℝ), (540 : ℝ)) ANTHILL_POINT s =
      ((480 : ℝ), (540 : ℝ)) := fun s => by
    rw [show ANTHILL_POINT = ((480 : ℝ), (540 : ℝ)) from rfl]
    exact move_toward_self _ s
  have hcol : sq_dist ((480 : ℝ), (540 : ℝ)) ANTHILL_POINT < FOOD_COLLECTION_RANGE_SQUARED := by
    norm_num [sq_dist, ANTHILL_POINT, FOOD_COLLECTION_RANGE_SQUARED]
  unfold Ant.move Ant.stepMove
  norm_num [antDep, mrZero, update_role, Colony.get_ant_speed, BASE_ANT_SPEED,
    CRITICAL_FOOD_LEVEL, OPTIMAL_FOOD_LEVEL, hmt, hcol]

theorem antBld_move_eval :
    antBld.move ⟨318.8, 20, 100, 0⟩ [] mrZero =
      (⟨480, 540, 1, Role.builder, false, false, none⟩, ⟨318.8, 20, 100, 0⟩, []) := by
  have hrne : (Role.builder = Role.scavenger) = False := by simp
  unfold Ant.move Ant.stepMove
  norm_num [antBld, mrZero, update_role, Colony.get_ant_speed, BASE_ANT_SPEED,
    CRITICAL_FOOD_LEVEL, OPTIMAL_FOOD_LEVEL, hrne]

/-- Claim C3 is violated by the code: from a state whose food storage
(299) is below `CRITICAL_FOOD_LEVEL` (300), one tick does NOT force
every agent to scavenger — the first agent deposits `+20` mid-tick,
lifting storage to 318.8, so the second agent's role refresh no longer
sees a critical level and it remains a builder. -/
theorem claim_C3_counterexample :
    stateC3.colony.food_storage < CRITICAL_FOOD_LEVEL ∧
      (tick stateC3 [] trC3).ants.map Ant.role = [Role.scavenger, Role.builder] := by
  constructor
  · norm_num [stateC3, CRITICAL_FOOD_LEVEL]
  · unfold tick
    simp only [stateC3, trC3, antDep, antBld, List.foldl_nil, List.length_cons,
      List.length_nil]
    rw [show ((0 : ℕ) + 1 + 1) = 2 from rfl]
    rw [colonyC3_update_eval]
    simp only [moveAnts]
    rw [show (⟨480, 540, 1, Role.scavenger, false, true, none⟩ : Ant) = antDep from rfl,
      show (⟨480, 540, 1, Role.builder, false, false, none⟩ : Ant) = antBld from rfl,
      antDep_move_eval]
    simp only []
    rw [antBld_move_eval]
    rfl

/-- Consumption and flooring can only keep the storage below the
critical level when it already was. -/
theorem update_storage_lt (c : Colony) (n : ℕ) (g rd : Bool)
    (h : c.food_storage < CRITICAL_FOOD_LEVEL) :
    (c.update n g rd).1.food_storage < CRITICAL_FOOD_LEVEL := by
  have hle : c.food_storage - (n : ℚ) * FOOD_CONSUMPTION_RATE ≤ c.food_storage :=
    sub_le_self _ (mul_nonneg (Nat.cast_nonneg n) (by norm_num [FOOD_CONSUMPTION_RATE]))
  unfold Colony.update
  dsimp only
  split <;> split <;>
    exact max_lt (by norm_num [CRITICAL_FOOD_LEVEL]) (lt_of_le_of_lt hle h)

/-- Either no growth signal fires, or the post-consumption storage
exceeded the optimal level. -/
theorem update_growth_characterization (c : Colony) (n : ℕ) (g rd : Bool) :
    (c.update n g rd).2 = none ∨
      OPTIMAL_FOOD_LEVEL < (c.update n g rd).1.food_storage := by
  unfold Colony.update
  dsimp only
  repeat' split
  all_goals first
    | exact Or.inl rfl
    | (rename_i hgrow; exact Or.inr hgrow.1)

/-- With storage below the critical level, one `Ant.move` of an agent
not carrying food forces its role to scavenger, and — since such an
agent can only harvest, never deposit, and a forced scavenger never
builds — leaves the colony completely unchanged. -/
theorem move_forced_scavenger (a : Ant) (c : Colony) (fm : Manager) (r : MoveRand)
    (hcrit : c.food_storage < CRITICAL_FOOD_LEVEL) (hfood : a.has_food = false) :
    (a.move c fm r).1.role = Role.scavenger ∧ (a.move c fm r).2.1 = c := by
  have hrole : update_role a.role c.food_storage r.switchDraw r.builderDraw =
      Role.scavenger := by
    unfold update_role
    rw [if_pos hcrit]
  have hrne : (Role.scavenger = Role.builder) = False := by simp
  unfold Ant.move Ant.stepMove
  dsimp only
  rw [hrole, hfood]
  rcases hf : find_food (a.x, a.y) a.target fm with _ | t
  · norm_num [hrne]
  · norm_num [hrne]
    split <;> simp

/-- The ant loop under a critical food level: if no agent carries food
at the start of the loop, every agent comes out a scavenger. -/
theorem moveAnts_scavenger (ants : List Ant) (c : Colony) (fm : Manager) (r : ℕ → MoveRand)
    (hcrit : c.food_storage < CRITICAL_FOOD_LEVEL)
    (hnofood : ∀ a ∈ ants, a.has_food = false) :
    ∀ a ∈ (moveAnts ants c fm r).1, a.role = Role.scavenger := by
  induction ants generalizing c fm r with
  | nil => simp [moveAnts]
  | cons a rest ih =>
    have hmove := move_forced_scavenger a c fm (r 0) hcrit (hnofood a (by simp))
    intro b hb
    simp only [moveAnts, List.mem_cons] at hb
    rcases hb with hb | hb
    · rw [hb]
      exact hmove.1
    · have := ih (a.move c fm (r 0)).2.1 (a.move c fm (r 0)).2.2 (fun i => r (i + 1))
        (by rw [hmove.2]; exact hcrit) (fun x hx => hnofood x (by simp [hx]))
      exact this b hb

/-- Claim C3 amended: when `colony.foodStorage` is below
`CRITICAL_FOOD_LEVEL` at the start of a tick AND no live agent is
carrying food (so no mid-tick `+20` deposit can lift storage back over
the threshold), every live agent has role scavenger after the tick.
Without the no-deposit condition the original claim fails (see the
counterexample). -/
theorem claim_C3_amended (s : SimState) (spawns : List Food) (r : TickRand)
    (hcrit : s.colony.food_storage < CRITICAL_FOOD_LEVEL)
    (hnofood : ∀ a ∈ s.ants, a.has_food = false) :
    ∀ a ∈ (tick s spawns r).ants, a.role = Role.scavenger := by
  unfold tick
  dsimp only
  have hfs := update_storage_lt s.colony s.ants.length r.growthDraw r.roleDraw hcrit
  rcases hcu : (Colony.update s.colony s.ants.length r.growthDraw r.roleDraw).2 with _ | na
  · exact moveAnts_scavenger _ _ _ _ hfs hnofood
  · exfalso
    rcases update_growth_characterization s.colony s.ants.length r.growthDraw r.roleDraw with
      hnone | hstor
    · rw [hcu] at hnone
      exact Option.noConfusion hnone
    · have : OPTIMAL_FOOD_LEVEL < CRITICAL_FOOD_LEVEL := lt_trans hstor hfs
      norm_num [OPTIMAL_FOOD_LEVEL, CRITICAL_FOOD_LEVEL] at this

/-- Witness for the amended C3: a single builder, not carrying, with
storage 250 < 300; after one tick its role is scavenger. -/
theorem claim_C3_amended_witness :
    stateC3w.colony.food_storage < CRITICAL_FOOD_LEVEL ∧
      (∀ a ∈ stateC3w.ants, a.has_food = false) ∧
      ∀ a ∈ (tick stateC3w [] trC3).ants, a.role = Role.scavenger := by
  refine ⟨by norm_num [stateC3w, CRITICAL_FOOD_LEVEL], by simp [stateC3w], ?_⟩
  exact claim_C3_amended stateC3w [] trC3
    (by norm_num [stateC3w, CRITICAL_FOOD_LEVEL]) (by simp [stateC3w])

/-- Witness for C9: a carrying ant 30 units east of the nest point
strictly decreases its distance to the nest in one tick. -/
theorem claim_C9_monotone_return_witness :
    antC9.has_food = true ∧ Colony.init.nest_size ≤ MAX_NEST_SIZE ∧
      FOOD_COLLECTION_RANGE_SQUARED ≤ sq_dist (antC9.x, antC9.y) ANTHILL_POINT ∧
      euclid_dist ((antC9.move Colony.init [] mrZero).1.x,
          (antC9.move Colony.init [] mrZero).1.y) ANTHILL_POINT <
        euclid_dist (antC9.x, antC9.y) ANTHILL_POINT := by
  refine ⟨rfl, by norm_num [Colony.init, MAX_NEST_SIZE], ?_, ?_⟩
  · norm_num [antC9, sq_dist, ANTHILL_POINT, FOOD_COLLECTION_RANGE_SQUARED]
  · exact (claim_C9_monotone_return antC9 Colony.init [] mrZero rfl
      (by norm_num [Colony.init, MAX_NEST_SIZE])
      (by norm_num [antC9, sq_dist, ANTHILL_POINT, FOOD_COLLECTION_RANGE_SQUARED])).1
